import Mathlib

/-!
Verification of the secure foreign-buffer transfer module specified for the
`working-with-foreign-functions` repository.  The repository's notebook
demonstrates the underlying native calls (fopen/fread/fclose, a native
string-buffer allocator, memset, randombytes, addressof); the SecureBuffer
component that the specification describes around those calls is modelled
here from the specification text, faithful to its words, and its stated
properties are proved over that model.

Bytes are natural numbers; a file is a list of bytes; the native library's
observable behaviour is a `NativeEnv` (file system, allocator, open handle,
close result, random-byte source).  Every operation returns the error it
signals (if any), the buffer after the operation, and the exact sequence of
native calls it performed, so that ordering and "no native call" claims are
directly statable.
-/

/-- Lifecycle states of a MemoryRegion, from the spec:
`Uninitialized → Allocated → Loaded → Cleared → Released` (terminal). -/
inductive LifecycleState
  | Uninitialized
  | Allocated
  | Loaded
  | Cleared
  | Released
deriving DecidableEq, Repr

/-- The two caller-selectable scrub policies of `clear()`. -/
inductive ScrubPolicy
  | zeroFill
  | randomOverwrite
deriving DecidableEq, Repr

/-- Error kinds of the module (spec section 7). -/
inductive SBError
  | AllocationError
  | OpenError
  | ShortReadError
  | CloseError
  | SymbolNotFoundError
  | RebindingError
  | UseAfterReleaseError
  | InvalidStateError
deriving DecidableEq, Repr

/-- One native call, recorded for trace reasoning: the notebook's
fopen/fread/fclose/create_string_buffer/memset/randombytes/free shapes. -/
inductive NativeCall
  | openCall (path mode : String)
  | readCall (bufAddr elemSize count handle : Nat)
  | closeCall (handle : Nat)
  | allocCall (size : Nat)
  | memsetCall (addr val size : Nat)
  | randomCall (addr size : Nat)
  | freeCall (addr : Nat)
deriving DecidableEq, Repr

/-- A SecureBuffer: lifecycle state plus the MemoryRegion it owns
(base address, length, contents). -/
structure SecureBuffer where
  state : LifecycleState
  baseAddr : Nat
  regionSize : Nat
  contents : List Nat
deriving DecidableEq, Repr

/-- The observable behaviour of the native library consumed by SecureBuffer:
file contents by path (`none` = the file cannot be opened), the allocator's
result for a requested size (`none` or a null address = failure per the
declared return contract), the handle a successful open returns (0 = the
null/invalid handle), whether close succeeds, and the random-byte source. -/
structure NativeEnv where
  fs : String → Option (List Nat)
  allocAddr : Nat → Option Nat
  openHandle : Nat
  closeOk : Bool
  rngBytes : Nat → List Nat

/-- Result of one SecureBuffer operation: the error signalled (if any), the
buffer afterwards, and the native calls performed, in order. -/
structure OpResult where
  err : Option SBError
  buf : SecureBuffer
  trace : List NativeCall
deriving Repr

/-- The buffer before any operation. -/
def initBuffer : SecureBuffer :=
  { state := .Uninitialized, baseAddr := 0, regionSize := 0, contents := [] }

/-- Modelled from the spec: `allocate(size: N)` (the notebook only shows the
underlying `create_string_buffer(32)` call).  Requires `N > 0`; creates a
region of exactly `N` zero-initialized bytes via the native allocator; moves
state `Uninitialized → Allocated`; fails with `AllocationError` if the
native call reports failure (null result per its declared return contract).
Out-of-order calls fail with `InvalidStateError`, or `UseAfterReleaseError`
after release, and perform no native call. -/
def allocate (env : NativeEnv) (sb : SecureBuffer) (n : Nat) : OpResult :=
  match sb.state with
  | .Released => ⟨some .UseAfterReleaseError, sb, []⟩
  | .Uninitialized =>
      if n = 0 then ⟨some .InvalidStateError, sb, []⟩
      else
        match env.allocAddr n with
        | none => ⟨some .AllocationError, sb, [.allocCall n]⟩
        | some a =>
            if a = 0 then ⟨some .AllocationError, sb, [.allocCall n]⟩
            else
              ⟨none,
               { state := .Allocated, baseAddr := a, regionSize := n,
                 contents := List.replicate n 0 },
               [.allocCall n]⟩
  | _ => ⟨some .InvalidStateError, sb, []⟩

/-- Modelled from the spec: `loadFromFile(path, mode)` (the notebook only
shows the raw `fopen`/`fread`/`fclose` invocations).  Requires state
`Allocated`; invokes native open(path, mode), then — if the handle is not
null — native read(buffer_address, element_size=1, count=N, handle), then
native close(handle).  A null/invalid handle yields `OpenError` with no
read.  A read count below `N` is surfaced as `ShortReadError`, the unread
tail keeping its prior bytes.  A full read followed by a failing close
yields `CloseError` but the region is still Loaded with the data read. -/
def loadFromFile (env : NativeEnv) (sb : SecureBuffer) (path mode : String) : OpResult :=
  match sb.state with
  | .Released => ⟨some .UseAfterReleaseError, sb, []⟩
  | .Allocated =>
      match env.fs path with
      | none => ⟨some .OpenError, sb, [.openCall path mode]⟩
      | some fileBytes =>
          if env.openHandle = 0 then ⟨some .OpenError, sb, [.openCall path mode]⟩
          else
            let h := env.openHandle
            let n := sb.regionSize
            let readCount := min n fileBytes.length
            let newContents := fileBytes.take readCount ++ sb.contents.drop readCount
            let tr : List NativeCall :=
              [.openCall path mode, .readCall sb.baseAddr 1 n h, .closeCall h]
            if readCount < n then
              ⟨some .ShortReadError, { sb with contents := newContents }, tr⟩
            else if env.closeOk then
              ⟨none, { sb with state := .Loaded, contents := newContents }, tr⟩
            else
              ⟨some .CloseError, { sb with state := .Loaded, contents := newContents }, tr⟩
  | _ => ⟨some .InvalidStateError, sb, []⟩

/-- Modelled from the spec: `address()` (the notebook only shows the raw
`addressof(data)` call).  Valid in any state at or past `Allocated` other
than `Released`; returns the stable base address; pure, no side effect. -/
def address (sb : SecureBuffer) : Except SBError Nat :=
  match sb.state with
  | .Uninitialized => .error .InvalidStateError
  | .Released => .error .UseAfterReleaseError
  | _ => .ok sb.baseAddr

/-- Modelled from the spec: the read-only bounded view `peek(offset, length)`
for inspection in tests; copies only the requested span. -/
def peek (sb : SecureBuffer) (offset length : Nat) : Except SBError (List Nat) :=
  match sb.state with
  | .Uninitialized => .error .InvalidStateError
  | .Released => .error .UseAfterReleaseError
  | _ => .ok ((sb.contents.drop offset).take length)

/-- Modelled from the spec: `clear()` (the notebook only shows the raw
`libc.memset(data, 0, 32)` and `lib.randombytes(bs, 8)` calls).  Requires a
state at or past `Allocated` and not `Released`; overwrites all `N` bytes
with the selected scrub policy (deterministic zero-fill via the native
memset, or cryptographically strong random overwrite via the native random
source, which writes exactly `N` bytes); moves state to `Cleared`. -/
def clear (env : NativeEnv) (sb : SecureBuffer) (p : ScrubPolicy) : OpResult :=
  match sb.state with
  | .Released => ⟨some .UseAfterReleaseError, sb, []⟩
  | .Uninitialized => ⟨some .InvalidStateError, sb, []⟩
  | _ =>
      match p with
      | .zeroFill =>
          ⟨none,
           { sb with state := .Cleared, contents := List.replicate sb.regionSize 0 },
           [.memsetCall sb.baseAddr 0 sb.regionSize]⟩
      | .randomOverwrite =>
          let r :=
            (env.rngBytes sb.regionSize ++ List.replicate sb.regionSize 0).take sb.regionSize
          ⟨none, { sb with state := .Cleared, contents := r },
           [.randomCall sb.baseAddr sb.regionSize]⟩

/-- Modelled from the spec: `release()`.  Requires state `Cleared`; returns
the native allocation to the native allocator; moves `Cleared → Released`. -/
def release (_env : NativeEnv) (sb : SecureBuffer) : OpResult :=
  match sb.state with
  | .Released => ⟨some .UseAfterReleaseError, sb, []⟩
  | .Cleared => ⟨none, { sb with state := .Released }, [.freeCall sb.baseAddr]⟩
  | _ => ⟨some .InvalidStateError, sb, []⟩

/-- One abstract operation on a SecureBuffer, for quantifying over
arbitrary call sequences. -/
inductive Op
  | allocateOp (n : Nat)
  | loadOp (path mode : String)
  | clearOp (p : ScrubPolicy)
  | releaseOp
  | addressOp
  | peekOp (offset length : Nat)
deriving DecidableEq, Repr

/-- Dispatch one operation.  The read-only operations `address` and `peek`
never change the buffer and perform no native call. -/
def step (env : NativeEnv) (sb : SecureBuffer) : Op → OpResult
  | .allocateOp n => allocate env sb n
  | .loadOp path mode => loadFromFile env sb path mode
  | .clearOp p => clear env sb p
  | .releaseOp => release env sb
  | .addressOp =>
      match address sb with
      | .ok _ => ⟨none, sb, []⟩
      | .error e => ⟨some e, sb, []⟩
  | .peekOp o l =>
      match peek sb o l with
      | .ok _ => ⟨none, sb, []⟩
      | .error e => ⟨some e, sb, []⟩

/-- Run a sequence of operations, threading the buffer through. -/
def run (env : NativeEnv) (sb : SecureBuffer) : List Op → SecureBuffer
  | [] => sb
  | op :: rest => run env (step env sb op).buf rest

/-- Position of a state along the forward lifecycle chain. -/
def rank : LifecycleState → Nat
  | .Uninitialized => 0
  | .Allocated => 1
  | .Loaded => 2
  | .Cleared => 3
  | .Released => 4

/-! Concrete native environments used to witness the theorems. -/

/-- A well-behaved native environment: every path opens onto the 3-byte file
`[10, 20, 30]`, allocation succeeds at address 4096, open returns handle 7,
close succeeds, and the random source emits 9-valued bytes. -/
def cEnv : NativeEnv :=
  { fs := fun _ => some [10, 20, 30]
    allocAddr := fun _ => some 4096
    openHandle := 7
    closeOk := true
    rngBytes := fun n => List.replicate n 9 }

/-- An environment in which no file can be opened. -/
def cEnvNoFile : NativeEnv :=
  { cEnv with fs := fun _ => none }

/-- An environment whose files hold only 2 bytes, for short-read scenarios. -/
def cEnvShort : NativeEnv :=
  { cEnv with fs := fun _ => some [10, 20] }

/-- An environment in which close reports failure. -/
def cEnvBadClose : NativeEnv :=
  { cEnv with closeOk := false }

/-! Helper lemmas about single steps and runs. -/

theorem rank_step_le (env : NativeEnv) (sb : SecureBuffer) (op : Op) :
    rank sb.state ≤ rank (step env sb op).buf.state := by
  obtain ⟨st, ba, n, cs⟩ := sb
  cases op <;> cases st <;>
    simp only [step, allocate, loadFromFile, clear, release, address, peek] <;>
    (repeat' split) <;> simp [rank]

theorem step_released (env : NativeEnv) (sb : SecureBuffer) (op : Op)
    (h : sb.state = .Released) :
    (step env sb op).err = some .UseAfterReleaseError ∧
      (step env sb op).buf = sb ∧ (step env sb op).trace = [] := by
  cases op <;>
    simp [step, allocate, loadFromFile, clear, release, address, peek, h]

theorem eq_uninit_of_rank_eq_zero (s : LifecycleState) (h : rank s = 0) :
    s = .Uninitialized := by
  cases s <;> first | rfl | simp [rank] at h

theorem step_baseAddr (env : NativeEnv) (sb : SecureBuffer) (op : Op)
    (h : sb.state ≠ .Uninitialized) :
    (step env sb op).buf.baseAddr = sb.baseAddr := by
  obtain ⟨st, ba, n, cs⟩ := sb
  cases op <;> cases st <;>
    first
    | exact absurd rfl h
    | (simp only [step, allocate, loadFromFile, clear, release, address, peek] <;>
       (repeat' split) <;> simp)

theorem step_ne_uninit (env : NativeEnv) (sb : SecureBuffer) (op : Op)
    (h : sb.state ≠ .Uninitialized) :
    (step env sb op).buf.state ≠ .Uninitialized := by
  intro hc
  have h1 := rank_step_le env sb op
  rw [hc] at h1
  simp only [rank] at h1
  exact h (eq_uninit_of_rank_eq_zero _ (Nat.le_zero.mp h1))

theorem run_rank_le (env : NativeEnv) (sb : SecureBuffer) (ops : List Op) :
    rank sb.state ≤ rank (run env sb ops).state := by
  induction ops generalizing sb with
  | nil => exact le_refl _
  | cons op rest ih =>
      exact le_trans (rank_step_le env sb op) (ih ((step env sb op).buf))

theorem run_baseAddr (env : NativeEnv) (sb : SecureBuffer) (ops : List Op)
    (h : sb.state ≠ .Uninitialized) :
    (run env sb ops).baseAddr = sb.baseAddr := by
  induction ops generalizing sb with
  | nil => rfl
  | cons op rest ih =>
      calc (run env (step env sb op).buf rest).baseAddr
          = (step env sb op).buf.baseAddr := ih _ (step_ne_uninit env sb op h)
        _ = sb.baseAddr := step_baseAddr env sb op h

theorem run_ne_uninit (env : NativeEnv) (sb : SecureBuffer) (ops : List Op)
    (h : sb.state ≠ .Uninitialized) :
    (run env sb ops).state ≠ .Uninitialized := by
  intro hc
  have h1 := run_rank_le env sb ops
  rw [hc] at h1
  simp only [rank] at h1
  exact h (eq_uninit_of_rank_eq_zero _ (Nat.le_zero.mp h1))

theorem run_released (env : NativeEnv) (sb : SecureBuffer) (ops : List Op)
    (h : sb.state = .Released) :
    run env sb ops = sb := by
  induction ops generalizing sb with
  | nil => rfl
  | cons op rest ih =>
      show run env (step env sb op).buf rest = sb
      rw [(step_released env sb op h).2.1]
      exact ih sb h

theorem address_ok (sb : SecureBuffer) (h1 : sb.state ≠ .Uninitialized)
    (h2 : sb.state ≠ .Released) : address sb = .ok sb.baseAddr := by
  obtain ⟨st, ba, n, cs⟩ := sb
  cases st <;> first | exact absurd rfl h1 | exact absurd rfl h2 | rfl

/-- C1: Round-trip — for every K-byte sequence written as a file, performing
allocate(K), loadFromFile on that file, and peek(0, K) returns exactly the
bytes written, with no alteration of content or order. -/
theorem C1_round_trip (env : NativeEnv) (path mode : String) (bs : List Nat)
    (k a : Nat) (hk : 0 < k) (hlen : bs.length = k)
    (hfs : env.fs path = some bs)
    (ha : env.allocAddr k = some a) (ha0 : a ≠ 0)
    (hh : env.openHandle ≠ 0) (hc : env.closeOk = true) :
    (allocate env initBuffer k).err = none ∧
    (loadFromFile env (allocate env initBuffer k).buf path mode).err = none ∧
    peek (loadFromFile env (allocate env initBuffer k).buf path mode).buf 0 k =
      .ok bs := by
  subst hlen
  have halloc : allocate env initBuffer bs.length =
      ⟨none, ⟨.Allocated, a, bs.length, List.replicate bs.length 0⟩,
       [.allocCall bs.length]⟩ := by
    simp [allocate, initBuffer, hk.ne', ha, ha0]
  rw [halloc]
  simp [loadFromFile, peek, hfs, hh, hc, List.take_length]

/-- C1 witness at a concrete 3-byte file in the well-behaved environment. -/
theorem C1_round_trip_witness :
    (allocate cEnv initBuffer 3).err = none ∧
    (loadFromFile cEnv (allocate cEnv initBuffer 3).buf "data.txt" "rb").err = none ∧
    peek (loadFromFile cEnv (allocate cEnv initBuffer 3).buf "data.txt" "rb").buf 0 3 =
      .ok [10, 20, 30] :=
  C1_round_trip cEnv "data.txt" "rb" [10, 20, 30] 3 4096 (by decide) rfl rfl rfl
    (by decide) (by decide) rfl

/-- C2: loadFromFile in state Allocated, with the file openable onto a valid
handle, invokes exactly three native calls in this order: open(path, mode),
then read(buffer_address, element_size=1, count=N, handle), then
close(handle) — no other native call occurs and none is skipped or
reordered. -/
theorem C2_load_native_call_order (env : NativeEnv) (sb : SecureBuffer)
    (path mode : String) (bs : List Nat)
    (hst : sb.state = .Allocated) (hfs : env.fs path = some bs)
    (hh : env.openHandle ≠ 0) :
    (loadFromFile env sb path mode).trace =
      [.openCall path mode,
       .readCall sb.baseAddr 1 sb.regionSize env.openHandle,
       .closeCall env.openHandle] := by
  obtain ⟨st, ba, n, cs⟩ := sb
  cases hst
  simp only [loadFromFile, hfs]
  rw [if_neg hh]
  split_ifs <;> rfl

/-- C2 witness on a concrete allocated buffer in the well-behaved
environment. -/
theorem C2_load_native_call_order_witness :
    (loadFromFile cEnv ⟨.Allocated, 4096, 3, [0, 0, 0]⟩ "data.txt" "rb").trace =
      [.openCall "data.txt" "rb", .readCall 4096 1 3 7, .closeCall 7] :=
  C2_load_native_call_order cEnv ⟨.Allocated, 4096, 3, [0, 0, 0]⟩ "data.txt" "rb"
    [10, 20, 30] rfl rfl (by decide)

/-- C3: loading a file shorter than N bytes into a freshly allocated N-byte
buffer yields ShortReadError (the shortfall is surfaced, never treated as
success) and the unread tail bytes keep their pre-load zero value. -/
theorem C3_short_read (env : NativeEnv) (path mode : String) (bs : List Nat)
    (k a : Nat) (hk : 0 < k) (hshort : bs.length < k)
    (hfs : env.fs path = some bs)
    (ha : env.allocAddr k = some a) (ha0 : a ≠ 0)
    (hh : env.openHandle ≠ 0) :
    (loadFromFile env (allocate env initBuffer k).buf path mode).err =
      some .ShortReadError ∧
    (loadFromFile env (allocate env initBuffer k).buf path mode).buf.contents =
      bs ++ List.replicate (k - bs.length) 0 ∧
    ((loadFromFile env (allocate env initBuffer k).buf path mode).buf.contents).drop
      bs.length = List.replicate (k - bs.length) 0 := by
  have halloc : allocate env initBuffer k =
      ⟨none, ⟨.Allocated, a, k, List.replicate k 0⟩, [.allocCall k]⟩ := by
    simp [allocate, initBuffer, hk.ne', ha, ha0]
  rw [halloc]
  have hmin : min k bs.length = bs.length := Nat.min_eq_right hshort.le
  simp [loadFromFile, hfs, hh, hmin, hshort, List.take_length, List.drop_replicate]

/-- C3 witness: a 2-byte file loaded into a 3-byte buffer. -/
theorem C3_short_read_witness :
    (loadFromFile cEnvShort (allocate cEnvShort initBuffer 3).buf "data.txt" "rb").err =
      some .ShortReadError ∧
    (loadFromFile cEnvShort (allocate cEnvShort initBuffer 3).buf "data.txt" "rb").buf.contents =
      [10, 20] ++ List.replicate 1 0 :=
  have h := C3_short_read cEnvShort "data.txt" "rb" [10, 20] 3 4096 (by decide)
    (by decide) rfl rfl (by decide) (by decide)
  ⟨h.1, h.2.1⟩

/-- C4: allocate(N) with precondition N > 0, starting from Uninitialized:
on a successful native allocation (non-null result) it yields no error, a
region of exactly N bytes all zero, and state Allocated; it fails with
AllocationError exactly when the native allocator reports failure (no
result, or the null address) per its declared return contract, leaving the
buffer unchanged. -/
theorem C4_allocate_contract (env : NativeEnv) (sb : SecureBuffer) (n : Nat)
    (hst : sb.state = .Uninitialized) (hn : 0 < n) :
    (∀ a, env.allocAddr n = some a → a ≠ 0 →
      (allocate env sb n).err = none ∧
      (allocate env sb n).buf.state = .Allocated ∧
      (allocate env sb n).buf.regionSize = n ∧
      (allocate env sb n).buf.contents = List.replicate n 0) ∧
    ((env.allocAddr n = none ∨ env.allocAddr n = some 0) →
      (allocate env sb n).err = some .AllocationError ∧
      (allocate env sb n).buf = sb) := by
  obtain ⟨st, ba, m, cs⟩ := sb
  cases hst
  constructor
  · intro a ha ha0
    simp [allocate, hn.ne', ha, ha0]
  · rintro (ha | ha) <;> simp [allocate, hn.ne', ha]

/-- C4 witness: a successful 3-byte allocation in the well-behaved
environment. -/
theorem C4_allocate_contract_witness :
    (allocate cEnv initBuffer 3).buf.state = .Allocated ∧
    (allocate cEnv initBuffer 3).buf.contents = List.replicate 3 0 :=
  have h := (C4_allocate_contract cEnv initBuffer 3 rfl (by decide)).1 4096 rfl
    (by decide)
  ⟨h.2.1, h.2.2.2⟩

theorem take_pad_eq (r : List Nat) (n : Nat) (hlen : r.length = n) :
    (r ++ List.replicate n 0).take n = r := by
  subst hlen
  simp [List.take_left]

theorem clear_zero_eq (env : NativeEnv) (st : LifecycleState) (ba n : Nat)
    (cs : List Nat) (hst : st = .Allocated ∨ st = .Loaded) :
    clear env ⟨st, ba, n, cs⟩ .zeroFill =
      ⟨none, ⟨.Cleared, ba, n, List.replicate n 0⟩, [.memsetCall ba 0 n]⟩ := by
  rcases hst with h | h <;> subst h <;> rfl

theorem clear_random_eq (env : NativeEnv) (st : LifecycleState) (ba n : Nat)
    (cs : List Nat) (hst : st = .Allocated ∨ st = .Loaded)
    (hlen : (env.rngBytes n).length = n) :
    clear env ⟨st, ba, n, cs⟩ .randomOverwrite =
      ⟨none, ⟨.Cleared, ba, n, env.rngBytes n⟩, [.randomCall ba n]⟩ := by
  rcases hst with h | h <;> subst h <;> simp [clear, take_pad_eq _ _ hlen]

/-- C5: clear() supports both caller-selectable scrub policies: zero-fill
makes peek over the whole region return all-zero bytes, while random
overwrite — whenever the native random source emits N bytes differing from
both the all-zero string and the original content, which happens with
overwhelming probability — makes peek differ from both; either policy moves
an Allocated or Loaded buffer to Cleared. -/
theorem C5_clear_policies (env : NativeEnv) (sb : SecureBuffer)
    (hst : sb.state = .Allocated ∨ sb.state = .Loaded) :
    ((clear env sb .zeroFill).err = none ∧
     (clear env sb .zeroFill).buf.state = .Cleared ∧
     peek (clear env sb .zeroFill).buf 0 sb.regionSize =
       .ok (List.replicate sb.regionSize 0)) ∧
    ((clear env sb .randomOverwrite).err = none ∧
     (clear env sb .randomOverwrite).buf.state = .Cleared ∧
     ((env.rngBytes sb.regionSize).length = sb.regionSize →
      env.rngBytes sb.regionSize ≠ List.replicate sb.regionSize 0 →
      env.rngBytes sb.regionSize ≠ sb.contents →
      peek (clear env sb .randomOverwrite).buf 0 sb.regionSize ≠
        .ok (List.replicate sb.regionSize 0) ∧
      peek (clear env sb .randomOverwrite).buf 0 sb.regionSize ≠
        .ok sb.contents)) := by
  obtain ⟨st, ba, n, cs⟩ := sb
  refine ⟨?_, ?_⟩
  · rw [clear_zero_eq env st ba n cs hst]
    refine ⟨rfl, rfl, ?_⟩
    simp [peek, List.take_replicate]
  · constructor
    · rcases hst with h | h <;> subst h <;> rfl
    constructor
    · rcases hst with h | h <;> subst h <;> rfl
    intro hlen hne0 hneo
    have hlen2 : (env.rngBytes n).length = n := hlen
    have hne02 : env.rngBytes n ≠ List.replicate n 0 := hne0
    have hneo2 : env.rngBytes n ≠ cs := hneo
    rw [clear_random_eq env st ba n cs hst hlen2]
    have htake : List.take n (env.rngBytes n) = env.rngBytes n :=
      List.take_of_length_le (le_of_eq hlen2)
    constructor <;> simp [peek, htake, hne02, hneo2]

/-- C5 witness: a concrete 2-byte Loaded buffer cleared under both
policies in the well-behaved environment (random source emits [9, 9]). -/
theorem C5_clear_policies_witness :
    peek (clear cEnv ⟨.Loaded, 4096, 2, [10, 20]⟩ .zeroFill).buf 0 2 =
      .ok [0, 0] ∧
    peek (clear cEnv ⟨.Loaded, 4096, 2, [10, 20]⟩ .randomOverwrite).buf 0 2 ≠
      .ok [10, 20] :=
  have h := C5_clear_policies cEnv ⟨.Loaded, 4096, 2, [10, 20]⟩ (Or.inr rfl)
  ⟨h.1.2.2, (h.2.2.2 rfl (by decide) (by decide)).2⟩

/-- C6: loadFromFile fails with OpenError whenever the native open yields a
null/invalid handle, without proceeding to read (the trace holds only the
open call and the buffer is untouched); and when the read completed fully
but close reports failure, the operation reports CloseError while the
region is still Loaded and the bytes already read remain in memory. -/
theorem C6_open_close_errors (env : NativeEnv) (sb : SecureBuffer)
    (path mode : String) (hst : sb.state = .Allocated)
    (hcl : sb.contents.length = sb.regionSize) :
    ((env.fs path = none ∨ env.openHandle = 0) →
      (loadFromFile env sb path mode).err = some .OpenError ∧
      (loadFromFile env sb path mode).buf = sb ∧
      (loadFromFile env sb path mode).trace = [.openCall path mode]) ∧
    (∀ bs, env.fs path = some bs → env.openHandle ≠ 0 →
      sb.regionSize ≤ bs.length → env.closeOk = false →
      (loadFromFile env sb path mode).err = some .CloseError ∧
      (loadFromFile env sb path mode).buf.state = .Loaded ∧
      (loadFromFile env sb path mode).buf.contents = bs.take sb.regionSize) := by
  obtain ⟨st, ba, n, cs⟩ := sb
  cases hst
  have hcl2 : cs.length = n := hcl
  constructor
  · rintro (hf | hf)
    · simp [loadFromFile, hf]
    · cases henv : env.fs path <;> simp [loadFromFile, hf, henv]
  · intro bs hf hh hlen hclose
    have hmin : min n bs.length = n := Nat.min_eq_left hlen
    have hdrop : cs.drop n = [] := by
      rw [← hcl2]
      exact List.drop_length cs
    simp [loadFromFile, hf, hh, hmin, hclose, hdrop]

/-- C6 witness: a failing close in an environment whose file fills the
3-byte buffer completely. -/
theorem C6_open_close_errors_witness :
    (loadFromFile cEnvBadClose ⟨.Allocated, 4096, 3, [0, 0, 0]⟩ "data.txt" "rb").err =
      some .CloseError ∧
    (loadFromFile cEnvBadClose ⟨.Allocated, 4096, 3, [0, 0, 0]⟩ "data.txt" "rb").buf.state =
      .Loaded :=
  have h := (C6_open_close_errors cEnvBadClose ⟨.Allocated, 4096, 3, [0, 0, 0]⟩
    "data.txt" "rb" rfl rfl).2 [10, 20, 30] rfl (by decide) (by decide) rfl
  ⟨h.1, h.2.1⟩

/-- C7: every out-of-lifecycle-order call — loadFromFile before allocate,
or any operation after release() — fails with InvalidStateError
(respectively UseAfterReleaseError), performs no native call, and leaves
the buffer unchanged. -/
theorem C7_state_order_guard (env : NativeEnv) :
    (∀ (sb : SecureBuffer) (path mode : String), sb.state = .Uninitialized →
      (loadFromFile env sb path mode).err = some .InvalidStateError ∧
      (loadFromFile env sb path mode).buf = sb ∧
      (loadFromFile env sb path mode).trace = []) ∧
    (∀ (sb : SecureBuffer) (op : Op), sb.state = .Released →
      (step env sb op).err = some .UseAfterReleaseError ∧
      (step env sb op).buf = sb ∧
      (step env sb op).trace = []) := by
  constructor
  · intro sb path mode hst
    obtain ⟨st, ba, n, cs⟩ := sb
    cases hst
    exact ⟨rfl, rfl, rfl⟩
  · intro sb op hst
    exact step_released env sb op hst

/-- C7 witness: a premature loadFromFile and a post-release clear. -/
theorem C7_state_order_guard_witness :
    (loadFromFile cEnv initBuffer "data.txt" "rb").err = some .InvalidStateError ∧
    (step cEnv ⟨.Released, 4096, 3, [0, 0, 0]⟩ (Op.clearOp .zeroFill)).err =
      some .UseAfterReleaseError :=
  ⟨((C7_state_order_guard cEnv).1 initBuffer "data.txt" "rb" rfl).1,
   ((C7_state_order_guard cEnv).2 ⟨.Released, 4096, 3, [0, 0, 0]⟩
     (Op.clearOp .zeroFill) rfl).1⟩

/-- C8: after a successful allocate(N) with N > 0, address() returns a
stable, non-zero (non-null) integer; it keeps returning that identical
value under any further sequence of operations until release(); and the
address() operation itself changes neither the buffer nor performs any
native call. -/
theorem C8_address_stable (env : NativeEnv) (k a : Nat)
    (hk : 0 < k) (ha : env.allocAddr k = some a) (ha0 : a ≠ 0) :
    a ≠ 0 ∧
    address (allocate env initBuffer k).buf = .ok a ∧
    (∀ ops : List Op,
      (run env (allocate env initBuffer k).buf ops).state ≠ .Released →
      address (run env (allocate env initBuffer k).buf ops) = .ok a) ∧
    (∀ sb : SecureBuffer,
      (step env sb .addressOp).buf = sb ∧ (step env sb .addressOp).trace = []) := by
  have halloc : allocate env initBuffer k =
      ⟨none, ⟨.Allocated, a, k, List.replicate k 0⟩, [.allocCall k]⟩ := by
    simp [allocate, initBuffer, hk.ne', ha, ha0]
  rw [halloc]
  refine ⟨ha0, rfl, ?_, ?_⟩
  · intro ops hrel
    have hne : ((⟨.Allocated, a, k, List.replicate k 0⟩ : SecureBuffer)).state ≠
        .Uninitialized := by simp
    rw [address_ok _ (run_ne_uninit env _ ops hne) hrel,
      run_baseAddr env _ ops hne]
  · intro sb
    simp only [step]
    split <;> exact ⟨rfl, rfl⟩

/-- C8 witness: the concrete address 4096 is returned right after
allocation and again after a subsequent load. -/
theorem C8_address_stable_witness :
    address (allocate cEnv initBuffer 3).buf = .ok 4096 ∧
    address (run cEnv (allocate cEnv initBuffer 3).buf
      [Op.loadOp "data.txt" "rb"]) = .ok 4096 :=
  have h := C8_address_stable cEnv 3 4096 (by decide) rfl (by decide)
  ⟨h.2.1, h.2.2.1 [Op.loadOp "data.txt" "rb"] (by decide)⟩

/-- C9: lifecycle invariant — under every sequence of operations a buffer's
state only moves forward along
Uninitialized → Allocated → Loaded → Cleared → Released and never
re-enters an earlier state; release() requires state Cleared (succeeding
exactly there, rejecting every other live state with InvalidStateError);
and Released is terminal. -/
theorem C9_lifecycle_forward (env : NativeEnv) :
    (∀ (sb : SecureBuffer) (op : Op),
      rank sb.state ≤ rank (step env sb op).buf.state) ∧
    (∀ (sb : SecureBuffer) (ops : List Op),
      rank sb.state ≤ rank (run env sb ops).state) ∧
    (∀ sb : SecureBuffer, sb.state = .Cleared →
      (release env sb).err = none ∧ (release env sb).buf.state = .Released) ∧
    (∀ sb : SecureBuffer, sb.state ≠ .Cleared → sb.state ≠ .Released →
      (release env sb).err = some .InvalidStateError ∧
      (release env sb).buf = sb) ∧
    (∀ (sb : SecureBuffer) (ops : List Op), sb.state = .Released →
      (run env sb ops).state = .Released) := by
  refine ⟨rank_step_le env, run_rank_le env, ?_, ?_, ?_⟩
  · intro sb hst
    obtain ⟨st, ba, n, cs⟩ := sb
    cases hst
    exact ⟨rfl, rfl⟩
  · intro sb h1 h2
    obtain ⟨st, ba, n, cs⟩ := sb
    cases st <;> first | exact absurd rfl h1 | exact absurd rfl h2 | exact ⟨rfl, rfl⟩
  · intro sb ops hst
    rw [run_released env sb ops hst]
    exact hst

/-- C9 witness: a clear-then-release run from Allocated, and a successful
release from Cleared. -/
theorem C9_lifecycle_forward_witness :
    rank ((⟨.Allocated, 4096, 3, [0, 0, 0]⟩ : SecureBuffer)).state ≤
      rank (run cEnv ⟨.Allocated, 4096, 3, [0, 0, 0]⟩
        [Op.clearOp .zeroFill, Op.releaseOp]).state ∧
    (release cEnv ⟨.Cleared, 4096, 3, [0, 0, 0]⟩).buf.state = .Released :=
  ⟨(C9_lifecycle_forward cEnv).2.1 ⟨.Allocated, 4096, 3, [0, 0, 0]⟩
     [Op.clearOp .zeroFill, Op.releaseOp],
   ((C9_lifecycle_forward cEnv).2.2.1 ⟨.Cleared, 4096, 3, [0, 0, 0]⟩ rfl).2⟩

/-- C10: after a zero-fill clear (native memset of all N bytes to 0) the
observable contents are the all-zero byte string regardless of what was
previously loaded: any two Loaded buffers of the same size have identical
post-clear contents, so the cleared region reveals nothing about the
sensitive data it held. -/
theorem C10_zero_fill_noninterference (env1 env2 : NativeEnv)
    (sb1 sb2 : SecureBuffer)
    (h1 : sb1.state = .Loaded) (h2 : sb2.state = .Loaded)
    (hsz : sb1.regionSize = sb2.regionSize) :
    (clear env1 sb1 .zeroFill).buf.contents =
      (clear env2 sb2 .zeroFill).buf.contents ∧
    (clear env1 sb1 .zeroFill).buf.contents =
      List.replicate sb1.regionSize 0 := by
  obtain ⟨st1, ba1, n1, cs1⟩ := sb1
  obtain ⟨st2, ba2, n2, cs2⟩ := sb2
  cases h1
  cases h2
  have hsz2 : n1 = n2 := hsz
  subst hsz2
  exact ⟨rfl, rfl⟩

/-- C10 witness: two buffers that held different 2-byte secrets are
indistinguishable after the zero-fill clear. -/
theorem C10_zero_fill_noninterference_witness :
    (clear cEnv ⟨.Loaded, 4096, 2, [10, 20]⟩ .zeroFill).buf.contents =
      (clear cEnvShort ⟨.Loaded, 8192, 2, [77, 88]⟩ .zeroFill).buf.contents :=
  (C10_zero_fill_noninterference cEnv cEnvShort ⟨.Loaded, 4096, 2, [10, 20]⟩
    ⟨.Loaded, 8192, 2, [77, 88]⟩ rfl rfl rfl).1
